import Mathlib

/-!
Shallow embedding of the key-rotation controller of
`src/architecture_competition_analyzer_v4.7.py`:
the functions `parse_error_message` and `try_with_multi_project_keys`,
together with the Streamlit session state they read and mutate
(`st.session_state.current_project_idx` and
`st.session_state.project_fail_count`).

Modelling conventions:
* an entry of `api_keys_info` (a dict with fields `"project"` and `"key"`)
  becomes the structure `KeyInfo`;
* the session dict `project_fail_count`, whose missing entries are
  initialised to `0` right before every read, is modelled as a total
  function `String → Nat` (absent key = count 0, exactly the observable
  behaviour of the init-if-absent step);
* the zero-argument callable `call_func`, whose outcome differs from one
  invocation to the next because of the outside world, is determinised as
  a function from the invocation number (0-based) to `Except String String`:
  `Except.ok r` models a normal return, `Except.error e` models a raised
  exception whose `str(...)` is `e`;
* `time.sleep`, `genai.configure` and the `st.info`/`st.warning`/`st.error`/
  `st.success` UI calls have no observable effect in this embedding and are
  omitted; likewise the `retry_seconds` field of `parse_error_message`,
  which feeds only `time.sleep` durations;
* the `while attempts < max_attempts` loop is embedded as structural
  recursion on the remaining budget `max_attempts - attempts` (the fuel);
  every execution of the loop body consumes either one unit of fuel
  (the branches that do `attempts += 1` and continue) or returns;
* the unchecked list access `api_keys_info[current_idx]` is modelled with
  `List.getElem?`; a `none` result corresponds to the uncaught Python
  `IndexError` and is reported as the outcome `RotOutcome.indexError`;
* `RunResult` additionally carries two ghost counters that do not exist in
  the Python state: `calls`, the number of `call_func` invocations made so
  far, and `iters`, the number of executions of the loop body — they are
  pure instrumentation used to state the budget claims.
-/

namespace LegalAiApp

/-- One entry of `api_keys_info`: a dict holding the project label and the
API key, built by `validate_and_get_api_keys`. -/
structure KeyInfo where
  project : String
  key : String
deriving DecidableEq

/-- The part of `st.session_state` that `try_with_multi_project_keys`
reads and writes: `current_project_idx` and `project_fail_count`.
The fail-count dict is modelled as a total function defaulting to 0. -/
structure SessionState where
  current_project_idx : Nat
  project_fail_count : String → Nat

/-- Fresh session state: the lazily-initialised values `0` and `{}`. -/
def initialSession : SessionState :=
  ⟨0, fun _ => 0⟩

/-- Pointwise update of the fail-count dict: `d[k] = v`. -/
def setCount (f : String → Nat) (k : String) (v : Nat) : String → Nat :=
  fun x => if x = k then v else f x

/-- The three values of the `"type"` field produced by
`parse_error_message`. -/
inductive ErrType where
  | quota_exceeded
  | server_error
  | unknown
deriving DecidableEq

/-- The classification record returned by `parse_error_message`
(minus `retry_seconds`, which feeds only sleep durations). -/
structure ErrorInfo where
  type : ErrType
  message : String
deriving DecidableEq

/-- Substring test on char lists, mirroring the Python `needle in hay`
operator: true iff `needle` is a prefix of some suffix of `hay`. -/
def containsAux (needle : List Char) : List Char → Bool
  | [] => needle.isEmpty
  | c :: rest => needle.isPrefixOf (c :: rest) || containsAux needle rest

/-- Python's `needle in hay` on strings. -/
def strContains (hay needle : String) : Bool :=
  containsAux needle.data hay.data

/-- Python's `error_str.lower()`, modelled as per-character ASCII
lowercasing (sufficient for the `"quota"` substring test it feeds). -/
def strToLower (s : String) : String :=
  ⟨s.data.map Char.toLower⟩

/-- Embedding of `parse_error_message(error)`: classifies the error string
by substring matching — `"429"` or lowercase `"quota"` means quota
exhaustion, otherwise `"503"` means a transient server error, otherwise
the error is unclassified and the message is the raw error text. -/
def parse_error_message (error : String) : ErrorInfo :=
  if strContains error "429" || strContains (strToLower error) "quota" then
    ⟨ErrType.quota_exceeded, "API 할당량 초과"⟩
  else if strContains error "503" then
    ⟨ErrType.server_error, "서버 일시적 오류"⟩
  else
    ⟨ErrType.unknown, error⟩

/-- Observable outcome of one run of `try_with_multi_project_keys`:
the `(True, result, key_info)` / `(False, message, key_info-or-None)`
return tuples, plus `indexError` for the uncaught `IndexError` raised by
`api_keys_info[current_idx]` when the session index is out of range. -/
inductive RotOutcome where
  | ok (payload : String) (key : KeyInfo)
  | fail (msg : String) (key : Option KeyInfo)
  | indexError
deriving DecidableEq

/-- Result of a run: the returned tuple, the final session state, and two
ghost counters — `calls` (number of `call_func` invocations) and `iters`
(number of executions of the loop body). -/
structure RunResult where
  outcome : RotOutcome
  state : SessionState
  calls : Nat
  iters : Nat

/-- Message returned when the attempt budget is exhausted. -/
def exhausted_msg : String := "모든 프로젝트의 할당량이 소진되었습니다."

/-- Message returned when `api_keys_info` is empty. -/
def no_keys_msg : String := "유효한 API 키가 없습니다."

/-- The `while attempts < max_attempts` loop of
`try_with_multi_project_keys`, by recursion on the remaining attempt
budget (fuel): reads the current index, skips an already-exhausted
project (advancing the index modulo the list length and consuming one
attempt), otherwise invokes `call_func`; success resets that project's
fail count and returns; a raised error increments the project's fail
count and is then classified — quota advances the index and continues,
server-error continues at the same index, anything else returns a
failure attributed to the current key. -/
def rotLoop (api_keys_info : List KeyInfo) (call_func : Nat → Except String String)
    (max_retries_per_key : Nat) :
    Nat → Nat → Nat → SessionState → RunResult
  | 0, calls, iters, st =>
    ⟨RotOutcome.fail exhausted_msg none, st, calls, iters⟩
  | fuel + 1, calls, iters, st =>
    match api_keys_info[st.current_project_idx]? with
    | none => ⟨RotOutcome.indexError, st, calls, iters + 1⟩
    | some key_info =>
      if max_retries_per_key ≤ st.project_fail_count key_info.project then
        rotLoop api_keys_info call_func max_retries_per_key fuel calls (iters + 1)
          ⟨(st.current_project_idx + 1) % api_keys_info.length, st.project_fail_count⟩
      else
        match call_func calls with
        | Except.ok result =>
          ⟨RotOutcome.ok result key_info,
            ⟨st.current_project_idx, setCount st.project_fail_count key_info.project 0⟩,
            calls + 1, iters + 1⟩
        | Except.error e =>
          match (parse_error_message e).type with
          | ErrType.quota_exceeded =>
            rotLoop api_keys_info call_func max_retries_per_key fuel (calls + 1) (iters + 1)
              ⟨(st.current_project_idx + 1) % api_keys_info.length,
                setCount st.project_fail_count key_info.project
                  (st.project_fail_count key_info.project + 1)⟩
          | ErrType.server_error =>
            rotLoop api_keys_info call_func max_retries_per_key fuel (calls + 1) (iters + 1)
              ⟨st.current_project_idx,
                setCount st.project_fail_count key_info.project
                  (st.project_fail_count key_info.project + 1)⟩
          | ErrType.unknown =>
            ⟨RotOutcome.fail e (some key_info),
              ⟨st.current_project_idx,
                setCount st.project_fail_count key_info.project
                  (st.project_fail_count key_info.project + 1)⟩,
              calls + 1, iters + 1⟩

/-- Embedding of `try_with_multi_project_keys(api_keys_info, call_func,
max_retries_per_key)` (Python default `max_retries_per_key=2`): empty key
list fails at once; otherwise the loop runs with attempt budget
`len(api_keys_info) * max_retries_per_key` starting from the session
state `st` carried over from earlier invocations (`initialSession` on
first use). -/
def try_with_multi_project_keys (api_keys_info : List KeyInfo)
    (call_func : Nat → Except String String) (max_retries_per_key : Nat)
    (st : SessionState) : RunResult :=
  if api_keys_info.isEmpty then
    ⟨RotOutcome.fail no_keys_msg none, st, 0, 0⟩
  else
    rotLoop api_keys_info call_func max_retries_per_key
      (api_keys_info.length * max_retries_per_key) 0 0 st

/-! ### One-step unfolding lemmas for the loop body -/

section StepLemmas

variable {keys : List KeyInfo} {cf : Nat → Except String String}
variable {m fuel calls iters : Nat} {st : SessionState} {key_info : KeyInfo} {e r : String}

/-- Budget exhausted: the loop returns the exhaustion failure as-is. -/
theorem rotLoop_zero :
    rotLoop keys cf m 0 calls iters st =
      ⟨RotOutcome.fail exhausted_msg none, st, calls, iters⟩ := rfl

/-- Session index out of range: the indexing raises (uncaught). -/
theorem rotLoop_oob (hk : keys[st.current_project_idx]? = none) :
    rotLoop keys cf m (fuel + 1) calls iters st =
      ⟨RotOutcome.indexError, st, calls, iters + 1⟩ := by
  simp only [rotLoop, hk]

/-- Skip branch: the selected project's fail count has reached the bound, so
the loop advances the index (mod length) and recurses, with `calls`
unchanged and one unit of budget consumed. -/
theorem rotLoop_skip (hk : keys[st.current_project_idx]? = some key_info)
    (hskip : m ≤ st.project_fail_count key_info.project) :
    rotLoop keys cf m (fuel + 1) calls iters st =
      rotLoop keys cf m fuel calls (iters + 1)
        ⟨(st.current_project_idx + 1) % keys.length, st.project_fail_count⟩ := by
  simp only [rotLoop, hk]
  rw [if_pos hskip]

/-- Success branch: `call_func` returns, the loop resets the selected
project's fail count to 0 and returns the success tuple, index unchanged. -/
theorem rotLoop_ok_step (hk : keys[st.current_project_idx]? = some key_info)
    (hlt : st.project_fail_count key_info.project < m)
    (hcf : cf calls = Except.ok r) :
    rotLoop keys cf m (fuel + 1) calls iters st =
      ⟨RotOutcome.ok r key_info,
        ⟨st.current_project_idx, setCount st.project_fail_count key_info.project 0⟩,
        calls + 1, iters + 1⟩ := by
  simp only [rotLoop, hk]
  rw [if_neg (Nat.not_le.mpr hlt), hcf]

/-- Quota branch: the raised error is classified `quota_exceeded`, the
selected project's fail count is incremented and the index advances
(mod length) before the loop continues. -/
theorem rotLoop_quota (hk : keys[st.current_project_idx]? = some key_info)
    (hlt : st.project_fail_count key_info.project < m)
    (hcf : cf calls = Except.error e)
    (hcl : (parse_error_message e).type = ErrType.quota_exceeded) :
    rotLoop keys cf m (fuel + 1) calls iters st =
      rotLoop keys cf m fuel (calls + 1) (iters + 1)
        ⟨(st.current_project_idx + 1) % keys.length,
          setCount st.project_fail_count key_info.project
            (st.project_fail_count key_info.project + 1)⟩ := by
  simp only [rotLoop, hk]
  rw [if_neg (Nat.not_le.mpr hlt), hcf]
  simp only [hcl]

/-- Server-error branch: the raised error is classified `server_error`, the
selected project's fail count is incremented and the loop continues at the
same index (the source only sleeps; it does not advance
`current_project_idx`). -/
theorem rotLoop_server (hk : keys[st.current_project_idx]? = some key_info)
    (hlt : st.project_fail_count key_info.project < m)
    (hcf : cf calls = Except.error e)
    (hcl : (parse_error_message e).type = ErrType.server_error) :
    rotLoop keys cf m (fuel + 1) calls iters st =
      rotLoop keys cf m fuel (calls + 1) (iters + 1)
        ⟨st.current_project_idx,
          setCount st.project_fail_count key_info.project
            (st.project_fail_count key_info.project + 1)⟩ := by
  simp only [rotLoop, hk]
  rw [if_neg (Nat.not_le.mpr hlt), hcf]
  simp only [hcl]

/-- Fatal branch: the raised error is classified `unknown`; the selected
project's fail count is still incremented (the increment precedes the
classification in the source), then the loop returns the failure
attributed to the selected key, index unchanged. -/
theorem rotLoop_fatal (hk : keys[st.current_project_idx]? = some key_info)
    (hlt : st.project_fail_count key_info.project < m)
    (hcf : cf calls = Except.error e)
    (hcl : (parse_error_message e).type = ErrType.unknown) :
    rotLoop keys cf m (fuel + 1) calls iters st =
      ⟨RotOutcome.fail e (some key_info),
        ⟨st.current_project_idx,
          setCount st.project_fail_count key_info.project
            (st.project_fail_count key_info.project + 1)⟩,
        calls + 1, iters + 1⟩ := by
  simp only [rotLoop, hk]
  rw [if_neg (Nat.not_le.mpr hlt), hcf]
  simp only [hcl]

end StepLemmas

/-! ### Inductive facts about whole runs of the loop -/

section RunLemmas

variable {keys : List KeyInfo} {cf : Nat → Except String String} {m : Nat}

/-- Each run executes the loop body at most `fuel` more times. -/
theorem rotLoop_iters_le (keys : List KeyInfo) (cf : Nat → Except String String)
    (m : Nat) : ∀ fuel calls iters st,
    (rotLoop keys cf m fuel calls iters st).iters ≤ iters + fuel := by
  intro fuel
  induction fuel with
  | zero => intro calls iters st; rw [rotLoop_zero]; dsimp only; omega
  | succ fuel ih =>
    intro calls iters st
    by_cases hidx : st.current_project_idx < keys.length
    · have hk : keys[st.current_project_idx]? =
          some (keys.get ⟨st.current_project_idx, hidx⟩) := by
        rw [List.get_eq_getElem]
        exact List.getElem?_eq_getElem hidx
      by_cases hskip : m ≤ st.project_fail_count (keys.get ⟨st.current_project_idx, hidx⟩).project
      · rw [rotLoop_skip hk hskip]
        exact le_trans (ih ..) (by omega)
      · have hlt := Nat.not_le.mp hskip
        cases hcf : cf calls with
        | ok r => rw [rotLoop_ok_step hk hlt hcf]; dsimp only; omega
        | error e =>
          cases hcl : (parse_error_message e).type with
          | quota_exceeded =>
            rw [rotLoop_quota hk hlt hcf hcl]
            exact le_trans (ih ..) (by omega)
          | server_error =>
            rw [rotLoop_server hk hlt hcf hcl]
            exact le_trans (ih ..) (by omega)
          | unknown => rw [rotLoop_fatal hk hlt hcf hcl]; dsimp only; omega
    · have hk : keys[st.current_project_idx]? = none :=
        List.getElem?_eq_none (Nat.not_lt.mp hidx)
      rw [rotLoop_oob hk]; dsimp only; omega

/-- Each run invokes `call_func` at most `fuel` more times. -/
theorem rotLoop_calls_le (keys : List KeyInfo) (cf : Nat → Except String String)
    (m : Nat) : ∀ fuel calls iters st,
    (rotLoop keys cf m fuel calls iters st).calls ≤ calls + fuel := by
  intro fuel
  induction fuel with
  | zero => intro calls iters st; rw [rotLoop_zero]; dsimp only; omega
  | succ fuel ih =>
    intro calls iters st
    by_cases hidx : st.current_project_idx < keys.length
    · have hk : keys[st.current_project_idx]? =
          some (keys.get ⟨st.current_project_idx, hidx⟩) := by
        rw [List.get_eq_getElem]
        exact List.getElem?_eq_getElem hidx
      by_cases hskip : m ≤ st.project_fail_count (keys.get ⟨st.current_project_idx, hidx⟩).project
      · rw [rotLoop_skip hk hskip]
        exact le_trans (ih ..) (by omega)
      · have hlt := Nat.not_le.mp hskip
        cases hcf : cf calls with
        | ok r => rw [rotLoop_ok_step hk hlt hcf]; dsimp only; omega
        | error e =>
          cases hcl : (parse_error_message e).type with
          | quota_exceeded =>
            rw [rotLoop_quota hk hlt hcf hcl]
            exact le_trans (ih ..) (by omega)
          | server_error =>
            rw [rotLoop_server hk hlt hcf hcl]
            exact le_trans (ih ..) (by omega)
          | unknown => rw [rotLoop_fatal hk hlt hcf hcl]; dsimp only; omega
    · have hk : keys[st.current_project_idx]? = none :=
        List.getElem?_eq_none (Nat.not_lt.mp hidx)
      rw [rotLoop_oob hk]; dsimp only; omega

/-- Index-range preservation: if the loop starts with an in-range session
index, it keeps the index in range at every advancement (all advancements
are mod `keys.length`) and never hits the out-of-range access. -/
theorem rotLoop_idx_lt (hN : 0 < keys.length) : ∀ fuel calls iters st,
    st.current_project_idx < keys.length →
    (rotLoop keys cf m fuel calls iters st).state.current_project_idx < keys.length ∧
    (rotLoop keys cf m fuel calls iters st).outcome ≠ RotOutcome.indexError := by
  intro fuel
  induction fuel with
  | zero =>
    intro calls iters st hidx
    rw [rotLoop_zero]
    exact ⟨hidx, by simp⟩
  | succ fuel ih =>
    intro calls iters st hidx
    have hk : keys[st.current_project_idx]? =
        some (keys.get ⟨st.current_project_idx, hidx⟩) := by
      rw [List.get_eq_getElem]
      exact List.getElem?_eq_getElem hidx
    by_cases hskip : m ≤ st.project_fail_count (keys.get ⟨st.current_project_idx, hidx⟩).project
    · rw [rotLoop_skip hk hskip]
      exact ih _ _ _ (Nat.mod_lt _ hN)
    · have hlt := Nat.not_le.mp hskip
      cases hcf : cf calls with
      | ok r =>
        rw [rotLoop_ok_step hk hlt hcf]
        exact ⟨hidx, by simp⟩
      | error e =>
        cases hcl : (parse_error_message e).type with
        | quota_exceeded =>
          rw [rotLoop_quota hk hlt hcf hcl]
          exact ih _ _ _ (Nat.mod_lt _ hN)
        | server_error =>
          rw [rotLoop_server hk hlt hcf hcl]
          exact ih _ _ _ hidx
        | unknown =>
          rw [rotLoop_fatal hk hlt hcf hcl]
          exact ⟨hidx, by simp⟩

/-- If every invocation of `call_func` raises an error classified as quota
or server (the two retryable kinds), the loop never succeeds and, once its
budget is spent, returns the exhaustion failure with no key attached. -/
theorem rotLoop_all_retryable (hN : 0 < keys.length)
    (herr : ∀ n, ∃ e, cf n = Except.error e ∧
      ((parse_error_message e).type = ErrType.quota_exceeded ∨
        (parse_error_message e).type = ErrType.server_error)) :
    ∀ fuel calls iters st, st.current_project_idx < keys.length →
    (rotLoop keys cf m fuel calls iters st).outcome =
      RotOutcome.fail exhausted_msg none := by
  intro fuel
  induction fuel with
  | zero => intro calls iters st _; rw [rotLoop_zero]
  | succ fuel ih =>
    intro calls iters st hidx
    have hk : keys[st.current_project_idx]? =
        some (keys.get ⟨st.current_project_idx, hidx⟩) := by
      rw [List.get_eq_getElem]
      exact List.getElem?_eq_getElem hidx
    by_cases hskip : m ≤ st.project_fail_count (keys.get ⟨st.current_project_idx, hidx⟩).project
    · rw [rotLoop_skip hk hskip]
      exact ih _ _ _ (Nat.mod_lt _ hN)
    · have hlt := Nat.not_le.mp hskip
      obtain ⟨e, hcf, hcl⟩ := herr calls
      cases hcl with
      | inl hq =>
        rw [rotLoop_quota hk hlt hcf hq]
        exact ih _ _ _ (Nat.mod_lt _ hN)
      | inr hs =>
        rw [rotLoop_server hk hlt hcf hs]
        exact ih _ _ _ hidx

/-- If every invocation of `call_func` succeeds and some project reachable
within the remaining budget (counting cyclically from the current index)
still has retry budget, the run succeeds, and the final session index
points at the key that succeeded, whose fail count has been reset to 0. -/
theorem rotLoop_always_ok (hok : ∀ n, ∃ r, cf n = Except.ok r) :
    ∀ fuel calls iters st, st.current_project_idx < keys.length →
    (∃ j k, j < fuel ∧ keys[(st.current_project_idx + j) % keys.length]? = some k ∧
      st.project_fail_count k.project < m) →
    ∃ r k, (rotLoop keys cf m fuel calls iters st).outcome = RotOutcome.ok r k ∧
      keys[(rotLoop keys cf m fuel calls iters st).state.current_project_idx]? = some k ∧
      (rotLoop keys cf m fuel calls iters st).state.project_fail_count k.project = 0 := by
  intro fuel
  induction fuel with
  | zero =>
    intro calls iters st _ hreach
    obtain ⟨j, k, hj, _, _⟩ := hreach
    omega
  | succ fuel ih =>
    intro calls iters st hidx hreach
    have hk : keys[st.current_project_idx]? =
        some (keys.get ⟨st.current_project_idx, hidx⟩) := by
      rw [List.get_eq_getElem]
      exact List.getElem?_eq_getElem hidx
    by_cases hskip : m ≤ st.project_fail_count (keys.get ⟨st.current_project_idx, hidx⟩).project
    · rw [rotLoop_skip hk hskip]
      obtain ⟨j, k, hj, hkj, hklt⟩ := hreach
      have hN : 0 < keys.length := Nat.lt_of_le_of_lt (Nat.zero_le _) hidx
      match j, hj with
      | 0, _ =>
        rw [Nat.add_zero, Nat.mod_eq_of_lt hidx, hk] at hkj
        injection hkj with hkeq
        subst hkeq
        omega
      | j' + 1, hj =>
        refine ih _ _ _ (Nat.mod_lt _ hN) ⟨j', k, by omega, ?_, hklt⟩
        rw [Nat.mod_add_mod, show st.current_project_idx + 1 + j' =
          st.current_project_idx + (j' + 1) by omega]
        exact hkj
    · have hlt := Nat.not_le.mp hskip
      obtain ⟨r, hcf⟩ := hok calls
      rw [rotLoop_ok_step hk hlt hcf]
      refine ⟨r, keys.get ⟨st.current_project_idx, hidx⟩, rfl, hk, ?_⟩
      simp [setCount]

/-- Arithmetic helper: from any in-range start index, any in-range target
index is reached in fewer than `N` cyclic steps. -/
theorem cycle_reach {N idx i : Nat} (hN : 0 < N) (hidx : idx < N) (hi : i < N) :
    ∃ j, j < N ∧ (idx + j) % N = i := by
  refine ⟨(i + N - idx) % N, Nat.mod_lt _ hN, ?_⟩
  rw [Nat.add_mod_mod]
  have h1 : idx + (i + N - idx) = i + N := by omega
  rw [h1, Nat.add_mod_right, Nat.mod_eq_of_lt hi]

/-- With a non-empty key list, the controller is the loop run with attempt
budget `len(api_keys_info) * max_retries_per_key`. -/
theorem try_unfold_nonempty {keys : List KeyInfo} {cf : Nat → Except String String}
    {m : Nat} {st : SessionState} (hN : 0 < keys.length) :
    try_with_multi_project_keys keys cf m st =
      rotLoop keys cf m (keys.length * m) 0 0 st := by
  rw [try_with_multi_project_keys, if_neg]
  simp only [List.isEmpty_iff]
  exact List.ne_nil_of_length_pos hN

/-- Every run of the loop ends in exactly one of four ways: success,
a failure attributed to some key (the fatal branch), the exhaustion
failure with no key, or the out-of-range index access. -/
theorem rotLoop_outcome_classification {keys : List KeyInfo}
    {cf : Nat → Except String String} {m : Nat} : ∀ fuel calls iters st,
    (∃ p k, (rotLoop keys cf m fuel calls iters st).outcome = RotOutcome.ok p k) ∨
    (∃ e k, (rotLoop keys cf m fuel calls iters st).outcome = RotOutcome.fail e (some k)) ∨
    (rotLoop keys cf m fuel calls iters st).outcome = RotOutcome.fail exhausted_msg none ∨
    (rotLoop keys cf m fuel calls iters st).outcome = RotOutcome.indexError := by
  intro fuel
  induction fuel with
  | zero =>
    intro calls iters st
    rw [rotLoop_zero]
    exact Or.inr (Or.inr (Or.inl rfl))
  | succ fuel ih =>
    intro calls iters st
    by_cases hidx : st.current_project_idx < keys.length
    · have hk : keys[st.current_project_idx]? =
          some (keys.get ⟨st.current_project_idx, hidx⟩) := by
        rw [List.get_eq_getElem]
        exact List.getElem?_eq_getElem hidx
      by_cases hskip : m ≤ st.project_fail_count (keys.get ⟨st.current_project_idx, hidx⟩).project
      · rw [rotLoop_skip hk hskip]; exact ih ..
      · have hlt := Nat.not_le.mp hskip
        cases hcf : cf calls with
        | ok r =>
          rw [rotLoop_ok_step hk hlt hcf]
          exact Or.inl ⟨r, _, rfl⟩
        | error e =>
          cases hcl : (parse_error_message e).type with
          | quota_exceeded => rw [rotLoop_quota hk hlt hcf hcl]; exact ih ..
          | server_error => rw [rotLoop_server hk hlt hcf hcl]; exact ih ..
          | unknown =>
            rw [rotLoop_fatal hk hlt hcf hcl]
            exact Or.inr (Or.inl ⟨e, _, rfl⟩)
    · have hk : keys[st.current_project_idx]? = none :=
        List.getElem?_eq_none (Nat.not_lt.mp hidx)
      rw [rotLoop_oob hk]
      exact Or.inr (Or.inr (Or.inr rfl))

end RunLemmas

/-! ### The claims -/

/-- Claim C1: for every non-empty credential list of length N and positive
`max_retries_per_key` m, a run of `try_with_multi_project_keys` executes
the loop body at most `N * m` times and invokes `call_func` at most
`N * m` times — the controller never loops unboundedly. -/
theorem C1_attempt_budget_bound (keys : List KeyInfo)
    (cf : Nat → Except String String) (m : Nat) (st : SessionState)
    (hN : 0 < keys.length) (_hm : 0 < m) :
    (try_with_multi_project_keys keys cf m st).iters ≤ keys.length * m ∧
    (try_with_multi_project_keys keys cf m st).calls ≤ keys.length * m := by
  rw [try_unfold_nonempty hN]
  exact ⟨by simpa using rotLoop_iters_le keys cf m (keys.length * m) 0 0 st,
    by simpa using rotLoop_calls_le keys cf m (keys.length * m) 0 0 st⟩

/-- Witness for C1: one credential, every attempt a quota error,
`max_retries_per_key = 1`: at most one iteration and one call. -/
theorem C1_attempt_budget_bound_witness :
    0 < ([⟨"A", "a"⟩] : List KeyInfo).length ∧ 0 < 1 ∧
    ((try_with_multi_project_keys [⟨"A", "a"⟩] (fun _ => Except.error "429") 1
        initialSession).iters ≤ ([⟨"A", "a"⟩] : List KeyInfo).length * 1 ∧
      (try_with_multi_project_keys [⟨"A", "a"⟩] (fun _ => Except.error "429") 1
        initialSession).calls ≤ ([⟨"A", "a"⟩] : List KeyInfo).length * 1) :=
  ⟨by decide, by decide,
    C1_attempt_budget_bound [⟨"A", "a"⟩] (fun _ => Except.error "429") 1
      initialSession (by decide) (by decide)⟩

/-- Claim C2 counterexample: the claim says a transient-server-classified
error advances `current_project_idx` before the loop continues, but the
source's `server_error` branch only sleeps and retries the same key.
Concretely, with two keys and a first attempt raising `"503 unavailable"`
(classified `server_error`), the second attempt runs against the SAME key
`P1` and succeeds there, leaving the index at 0 — had the index advanced,
the success would have been attributed to `P2` (and, since a successful
attempt never moves the index, the final index would be 1). -/
theorem C2_server_error_keeps_index_counterexample :
    (parse_error_message "503 unavailable").type = ErrType.server_error ∧
    (try_with_multi_project_keys [⟨"P1", "k1"⟩, ⟨"P2", "k2"⟩]
        (fun n => if n = 0 then Except.error "503 unavailable" else Except.ok "done")
        2 initialSession).outcome = RotOutcome.ok "done" ⟨"P1", "k1"⟩ ∧
    (try_with_multi_project_keys [⟨"P1", "k1"⟩, ⟨"P2", "k2"⟩]
        (fun n => if n = 0 then Except.error "503 unavailable" else Except.ok "done")
        2 initialSession).state.current_project_idx = 0 := by
  refine ⟨by decide, by decide, by decide⟩

/-- Claim C2 as amended: of the two retryable error kinds, only a
quota-classified failure advances `current_project_idx` to
`(current + 1) mod len`; a server-classified failure increments the fail
count but continues the loop at the unchanged index. -/
theorem C2_only_quota_advances_index (keys : List KeyInfo)
    (cf : Nat → Except String String) (m fuel calls iters : Nat)
    (st : SessionState) (key_info : KeyInfo) (e : String)
    (hk : keys[st.current_project_idx]? = some key_info)
    (hlt : st.project_fail_count key_info.project < m)
    (hcf : cf calls = Except.error e) :
    ((parse_error_message e).type = ErrType.quota_exceeded →
      rotLoop keys cf m (fuel + 1) calls iters st =
        rotLoop keys cf m fuel (calls + 1) (iters + 1)
          ⟨(st.current_project_idx + 1) % keys.length,
            setCount st.project_fail_count key_info.project
              (st.project_fail_count key_info.project + 1)⟩) ∧
    ((parse_error_message e).type = ErrType.server_error →
      rotLoop keys cf m (fuel + 1) calls iters st =
        rotLoop keys cf m fuel (calls + 1) (iters + 1)
          ⟨st.current_project_idx,
            setCount st.project_fail_count key_info.project
              (st.project_fail_count key_info.project + 1)⟩) :=
  ⟨fun hcl => rotLoop_quota hk hlt hcf hcl,
    fun hcl => rotLoop_server hk hlt hcf hcl⟩

/-- Witness for the amended C2, at a quota-classified error on a fresh
two-key session. -/
theorem C2_only_quota_advances_index_witness :
    ([⟨"A", "a"⟩, ⟨"B", "b"⟩] : List KeyInfo)[(initialSession).current_project_idx]? =
        some ⟨"A", "a"⟩ ∧
    initialSession.project_fail_count "A" < 2 ∧
    (fun _ : Nat => Except.error (α := String) "429") 0 = Except.error "429" ∧
    (((parse_error_message "429").type = ErrType.quota_exceeded →
      rotLoop [⟨"A", "a"⟩, ⟨"B", "b"⟩] (fun _ => Except.error "429") 2 1 0 0 initialSession =
        rotLoop [⟨"A", "a"⟩, ⟨"B", "b"⟩] (fun _ => Except.error "429") 2 0 1 1
          ⟨(initialSession.current_project_idx + 1) % ([⟨"A", "a"⟩, ⟨"B", "b"⟩] : List KeyInfo).length,
            setCount initialSession.project_fail_count "A"
              (initialSession.project_fail_count "A" + 1)⟩) ∧
    ((parse_error_message "429").type = ErrType.server_error →
      rotLoop [⟨"A", "a"⟩, ⟨"B", "b"⟩] (fun _ => Except.error "429") 2 1 0 0 initialSession =
        rotLoop [⟨"A", "a"⟩, ⟨"B", "b"⟩] (fun _ => Except.error "429") 2 0 1 1
          ⟨initialSession.current_project_idx,
            setCount initialSession.project_fail_count "A"
              (initialSession.project_fail_count "A" + 1)⟩)) :=
  ⟨by decide, by decide, rfl,
    C2_only_quota_advances_index [⟨"A", "a"⟩, ⟨"B", "b"⟩]
      (fun _ => Except.error "429") 2 0 0 0 initialSession ⟨"A", "a"⟩ "429"
      (by decide) (by decide) rfl⟩

/-- Claim C3: an attempt whose raised error is classified neither quota nor
server (the `unknown` branch) makes the controller return at once with
`(False, str(e), key_info)`: the failure is attributed to the failing key,
`current_project_idx` is not advanced, and `call_func` is never invoked
again (exactly one further invocation happened, no matter how much budget
was left). -/
theorem C3_fatal_error_returns_immediately (keys : List KeyInfo)
    (cf : Nat → Except String String) (m fuel calls iters : Nat)
    (st : SessionState) (key_info : KeyInfo) (e : String)
    (hk : keys[st.current_project_idx]? = some key_info)
    (hlt : st.project_fail_count key_info.project < m)
    (hcf : cf calls = Except.error e)
    (hcl : (parse_error_message e).type = ErrType.unknown) :
    (rotLoop keys cf m (fuel + 1) calls iters st).outcome =
        RotOutcome.fail e (some key_info) ∧
    (rotLoop keys cf m (fuel + 1) calls iters st).state.current_project_idx =
        st.current_project_idx ∧
    (rotLoop keys cf m (fuel + 1) calls iters st).calls = calls + 1 := by
  rw [rotLoop_fatal hk hlt hcf hcl]
  exact ⟨rfl, rfl, rfl⟩

/-- Witness for C3: single key, fatal error `"boom"`, plenty of budget
left. -/
theorem C3_fatal_error_returns_immediately_witness :
    ([⟨"A", "a"⟩] : List KeyInfo)[(initialSession).current_project_idx]? = some ⟨"A", "a"⟩ ∧
    initialSession.project_fail_count "A" < 2 ∧
    (fun _ : Nat => Except.error (α := String) "boom") 0 = Except.error "boom" ∧
    (parse_error_message "boom").type = ErrType.unknown ∧
    ((rotLoop [⟨"A", "a"⟩] (fun _ => Except.error "boom") 2 (1 + 1) 0 0
        initialSession).outcome = RotOutcome.fail "boom" (some ⟨"A", "a"⟩) ∧
      (rotLoop [⟨"A", "a"⟩] (fun _ => Except.error "boom") 2 (1 + 1) 0 0
        initialSession).state.current_project_idx = initialSession.current_project_idx ∧
      (rotLoop [⟨"A", "a"⟩] (fun _ => Except.error "boom") 2 (1 + 1) 0 0
        initialSession).calls = 0 + 1) :=
  ⟨by decide, by decide, rfl, by decide,
    C3_fatal_error_returns_immediately [⟨"A", "a"⟩] (fun _ => Except.error "boom")
      2 1 0 0 initialSession ⟨"A", "a"⟩ "boom" (by decide) (by decide) rfl (by decide)⟩

/-- Claim C4: when the currently active credential's `call_func` invocation
succeeds, the controller returns `(True, result, key_info)` at once (no
further invocation), leaves `current_project_idx` unchanged, resets exactly
that credential's fail count to 0 and leaves every other project's count
untouched. -/
theorem C4_first_success_wins (keys : List KeyInfo)
    (cf : Nat → Except String String) (m fuel calls iters : Nat)
    (st : SessionState) (key_info : KeyInfo) (r : String)
    (hk : keys[st.current_project_idx]? = some key_info)
    (hlt : st.project_fail_count key_info.project < m)
    (hcf : cf calls = Except.ok r) :
    (rotLoop keys cf m (fuel + 1) calls iters st).outcome =
        RotOutcome.ok r key_info ∧
    (rotLoop keys cf m (fuel + 1) calls iters st).state.current_project_idx =
        st.current_project_idx ∧
    (rotLoop keys cf m (fuel + 1) calls iters st).state.project_fail_count
        key_info.project = 0 ∧
    (∀ q, q ≠ key_info.project →
      (rotLoop keys cf m (fuel + 1) calls iters st).state.project_fail_count q =
        st.project_fail_count q) ∧
    (rotLoop keys cf m (fuel + 1) calls iters st).calls = calls + 1 := by
  rw [rotLoop_ok_step hk hlt hcf]
  refine ⟨rfl, rfl, by simp [setCount], fun q hq => ?_, rfl⟩
  simp [setCount, hq]

/-- Witness for C4: two keys with distinct projects, success on the first. -/
theorem C4_first_success_wins_witness :
    ([⟨"A", "a"⟩, ⟨"B", "b"⟩] : List KeyInfo)[(initialSession).current_project_idx]? =
        some ⟨"A", "a"⟩ ∧
    initialSession.project_fail_count "A" < 2 ∧
    (fun _ : Nat => Except.ok (ε := String) "payload") 0 = Except.ok "payload" ∧
    ((rotLoop [⟨"A", "a"⟩, ⟨"B", "b"⟩] (fun _ => Except.ok "payload") 2 (3 + 1) 0 0
        initialSession).outcome = RotOutcome.ok "payload" ⟨"A", "a"⟩ ∧
      (rotLoop [⟨"A", "a"⟩, ⟨"B", "b"⟩] (fun _ => Except.ok "payload") 2 (3 + 1) 0 0
        initialSession).state.current_project_idx = initialSession.current_project_idx ∧
      (rotLoop [⟨"A", "a"⟩, ⟨"B", "b"⟩] (fun _ => Except.ok "payload") 2 (3 + 1) 0 0
        initialSession).state.project_fail_count "A" = 0 ∧
      (∀ q, q ≠ "A" →
        (rotLoop [⟨"A", "a"⟩, ⟨"B", "b"⟩] (fun _ => Except.ok "payload") 2 (3 + 1) 0 0
          initialSession).state.project_fail_count q = initialSession.project_fail_count q) ∧
      (rotLoop [⟨"A", "a"⟩, ⟨"B", "b"⟩] (fun _ => Except.ok "payload") 2 (3 + 1) 0 0
        initialSession).calls = 0 + 1) :=
  ⟨by decide, by decide, rfl,
    C4_first_success_wins [⟨"A", "a"⟩, ⟨"B", "b"⟩] (fun _ => Except.ok "payload")
      2 3 0 0 initialSession ⟨"A", "a"⟩ "payload" (by decide) (by decide) rfl⟩

/-- Claim C5: starting from an in-range session index, a run that neither
succeeds nor fatally short-circuits (it consumed its whole attempt budget)
returns the exhaustion failure with no credential attached. -/
theorem C5_exhaustion_returns_no_credential (keys : List KeyInfo)
    (cf : Nat → Except String String) (m : Nat) (st : SessionState)
    (hN : 0 < keys.length) (hidx : st.current_project_idx < keys.length)
    (hnoSuccess : ∀ p k,
      (try_with_multi_project_keys keys cf m st).outcome ≠ RotOutcome.ok p k)
    (hnoFatal : ∀ e k,
      (try_with_multi_project_keys keys cf m st).outcome ≠ RotOutcome.fail e (some k)) :
    (try_with_multi_project_keys keys cf m st).outcome =
      RotOutcome.fail exhausted_msg none := by
  rw [try_unfold_nonempty hN] at hnoSuccess hnoFatal ⊢
  rcases rotLoop_outcome_classification (keys.length * m) 0 0 st with
    ⟨p, k, h⟩ | ⟨e, k, h⟩ | h | h
  · exact absurd h (hnoSuccess p k)
  · exact absurd h (hnoFatal e k)
  · exact h
  · exact absurd h (rotLoop_idx_lt hN (keys.length * m) 0 0 st hidx).2

/-- Witness for C5: one key, every attempt a quota error, budget 1. -/
theorem C5_exhaustion_returns_no_credential_witness :
    0 < ([⟨"A", "a"⟩] : List KeyInfo).length ∧
    initialSession.current_project_idx < ([⟨"A", "a"⟩] : List KeyInfo).length ∧
    (∀ p k, (try_with_multi_project_keys [⟨"A", "a"⟩] (fun _ => Except.error "429") 1
      initialSession).outcome ≠ RotOutcome.ok p k) ∧
    (∀ e k, (try_with_multi_project_keys [⟨"A", "a"⟩] (fun _ => Except.error "429") 1
      initialSession).outcome ≠ RotOutcome.fail e (some k)) ∧
    (try_with_multi_project_keys [⟨"A", "a"⟩] (fun _ => Except.error "429") 1
      initialSession).outcome = RotOutcome.fail exhausted_msg none := by
  have hout : (try_with_multi_project_keys [⟨"A", "a"⟩] (fun _ => Except.error "429") 1
      initialSession).outcome = RotOutcome.fail exhausted_msg none := by decide
  have hns : ∀ p k, (try_with_multi_project_keys [⟨"A", "a"⟩]
      (fun _ => Except.error "429") 1 initialSession).outcome ≠ RotOutcome.ok p k := by
    intro p k h
    rw [hout] at h
    exact RotOutcome.noConfusion h
  have hnf : ∀ e k, (try_with_multi_project_keys [⟨"A", "a"⟩]
      (fun _ => Except.error "429") 1 initialSession).outcome ≠
      RotOutcome.fail e (some k) := by
    intro e k h
    rw [hout] at h
    injection h with h1 h2
    exact Option.noConfusion h2
  exact ⟨by decide, by decide, hns, hnf,
    C5_exhaustion_returns_no_credential [⟨"A", "a"⟩] (fun _ => Except.error "429") 1
      initialSession (by decide) (by decide) hns hnf⟩

/-- Claim C6: a loop iteration that selects a credential whose fail count
has already reached `max_retries_per_key` skips it: `call_func` is not
invoked (the `calls` accumulator is passed on unchanged), the index
advances by one with modular wraparound, the fail counts are untouched,
and exactly one unit of the attempt budget is consumed (the recursive call
gets `fuel`, one less than `fuel + 1`) — exactly as much as a real
attempt consumes. -/
theorem C6_skip_consumes_budget (keys : List KeyInfo)
    (cf : Nat → Except String String) (m fuel calls iters : Nat)
    (st : SessionState) (key_info : KeyInfo)
    (hk : keys[st.current_project_idx]? = some key_info)
    (hskip : m ≤ st.project_fail_count key_info.project) :
    rotLoop keys cf m (fuel + 1) calls iters st =
      rotLoop keys cf m fuel calls (iters + 1)
        ⟨(st.current_project_idx + 1) % keys.length, st.project_fail_count⟩ :=
  rotLoop_skip hk hskip

/-- Witness for C6: one key whose project already has one failure, with
`max_retries_per_key = 1`. -/
theorem C6_skip_consumes_budget_witness :
    ([⟨"A", "a"⟩] : List KeyInfo)[(⟨0, fun _ => 1⟩ : SessionState).current_project_idx]? =
        some ⟨"A", "a"⟩ ∧
    1 ≤ (⟨0, fun _ => 1⟩ : SessionState).project_fail_count "A" ∧
    rotLoop [⟨"A", "a"⟩] (fun _ => Except.ok "x") 1 (0 + 1) 0 0 ⟨0, fun _ => 1⟩ =
      rotLoop [⟨"A", "a"⟩] (fun _ => Except.ok "x") 1 0 0 (0 + 1)
        ⟨((⟨0, fun _ => 1⟩ : SessionState).current_project_idx + 1) %
            ([⟨"A", "a"⟩] : List KeyInfo).length,
          (⟨0, fun _ => 1⟩ : SessionState).project_fail_count⟩ :=
  ⟨by decide, by decide,
    C6_skip_consumes_budget [⟨"A", "a"⟩] (fun _ => Except.ok "x") 1 0 0 0
      ⟨0, fun _ => 1⟩ ⟨"A", "a"⟩ (by decide) (by decide)⟩

/-- Claim C7: with an empty credential list the controller fails
immediately with the "no valid API keys" message and no credential
attached, invokes `call_func` zero times, never executes the loop body,
and returns the session state unchanged. -/
theorem C7_empty_credentials_fail_fast (cf : Nat → Except String String)
    (m : Nat) (st : SessionState) :
    try_with_multi_project_keys [] cf m st =
      ⟨RotOutcome.fail no_keys_msg none, st, 0, 0⟩ :=
  rfl

/-- Claim C8 counterexample: the invariant
`current_project_idx < len(api_keys_info)` does NOT hold at the start of a
later invocation that reuses a session index left behind by a run over a
longer credential list. With one credential and a persisted index of 1,
the first iteration's unchecked `api_keys_info[current_idx]` access is out
of range (an uncaught `IndexError` in the source) instead of the
controller re-establishing the invariant. -/
theorem C8_stale_index_counterexample :
    ([⟨"A", "a"⟩] : List KeyInfo).length ≤
        (⟨1, fun _ => 0⟩ : SessionState).current_project_idx ∧
    0 < ([⟨"A", "a"⟩] : List KeyInfo).length ∧
    (try_with_multi_project_keys [⟨"A", "a"⟩] (fun _ => Except.ok "x") 2
      ⟨1, fun _ => 0⟩).outcome = RotOutcome.indexError :=
  ⟨by decide, by decide, by decide⟩

/-- Claim C8 as amended: within a single invocation the invariant is
preserved — if the entry session index is in range for the non-empty
credential list, every advancement keeps it in range (all advancements
are mod `len`), the run never hits the out-of-range access, and the final
index is again in range; an invocation entered with a stale out-of-range
index instead raises at the first access. -/
theorem C8_index_invariant_within_run (keys : List KeyInfo)
    (cf : Nat → Except String String) (m : Nat) (st : SessionState)
    (hN : 0 < keys.length) (hidx : st.current_project_idx < keys.length) :
    (try_with_multi_project_keys keys cf m st).state.current_project_idx <
        keys.length ∧
    (try_with_multi_project_keys keys cf m st).outcome ≠ RotOutcome.indexError := by
  rw [try_unfold_nonempty hN]
  exact rotLoop_idx_lt hN (keys.length * m) 0 0 st hidx

/-- Witness for the amended C8: fresh session over one key. -/
theorem C8_index_invariant_within_run_witness :
    0 < ([⟨"A", "a"⟩] : List KeyInfo).length ∧
    initialSession.current_project_idx < ([⟨"A", "a"⟩] : List KeyInfo).length ∧
    ((try_with_multi_project_keys [⟨"A", "a"⟩] (fun _ => Except.ok "x") 2
        initialSession).state.current_project_idx < ([⟨"A", "a"⟩] : List KeyInfo).length ∧
      (try_with_multi_project_keys [⟨"A", "a"⟩] (fun _ => Except.ok "x") 2
        initialSession).outcome ≠ RotOutcome.indexError) :=
  ⟨by decide, by decide,
    C8_index_invariant_within_run [⟨"A", "a"⟩] (fun _ => Except.ok "x") 2
      initialSession (by decide) (by decide)⟩

/-- Claim C9: with a unit of work that always succeeds, two consecutive
controller calls (the second starting from the session state the first
left behind) both succeed, with the same credential, and the session index
after the second call equals the session index after the first call — no
churn of the active credential on repeated success. Requires an in-range
entry index and at least one project still under its retry bound (without
those, already the first call cannot succeed). -/
theorem C9_repeated_success_idempotent (keys : List KeyInfo)
    (cf : Nat → Except String String) (m : Nat) (st : SessionState)
    (hN : 0 < keys.length) (hm : 0 < m)
    (hidx : st.current_project_idx < keys.length)
    (hok : ∀ n, ∃ r, cf n = Except.ok r)
    (havail : ∃ (i : Nat) (k : KeyInfo), keys[i]? = some k ∧ st.project_fail_count k.project < m) :
    ∃ p q k,
      (try_with_multi_project_keys keys cf m st).outcome = RotOutcome.ok p k ∧
      (try_with_multi_project_keys keys cf m
          (try_with_multi_project_keys keys cf m st).state).outcome =
        RotOutcome.ok q k ∧
      (try_with_multi_project_keys keys cf m
          (try_with_multi_project_keys keys cf m st).state).state.current_project_idx =
        (try_with_multi_project_keys keys cf m st).state.current_project_idx := by
  obtain ⟨i, k, hik, hkm⟩ := havail
  have hiN : i < keys.length := (List.getElem?_eq_some_iff.mp hik).1
  obtain ⟨j, hjN, hjmod⟩ := cycle_reach hN hidx hiN
  have hreach : ∃ j1 k1, j1 < keys.length * m ∧
      keys[(st.current_project_idx + j1) % keys.length]? = some k1 ∧
      st.project_fail_count k1.project < m := by
    refine ⟨j, k, ?_, ?_, hkm⟩
    · calc j < keys.length := hjN
        _ = keys.length * 1 := (Nat.mul_one _).symm
        _ ≤ keys.length * m := Nat.mul_le_mul_left _ hm
    · rw [hjmod]; exact hik
  obtain ⟨p, k1, ho1, hk1, hc1⟩ :=
    rotLoop_always_ok hok (keys.length * m) 0 0 st hidx hreach
  have hlt1 : (rotLoop keys cf m (keys.length * m) 0 0 st).state.project_fail_count
      k1.project < m := by rw [hc1]; exact hm
  obtain ⟨q, hq⟩ := hok 0
  obtain ⟨f, hf⟩ : ∃ f, keys.length * m = f + 1 :=
    ⟨keys.length * m - 1, by have := Nat.mul_pos hN hm; omega⟩
  have h2 : ∀ st1 : SessionState, keys[st1.current_project_idx]? = some k1 →
      st1.project_fail_count k1.project < m →
      rotLoop keys cf m (keys.length * m) 0 0 st1 =
        ⟨RotOutcome.ok q k1,
          ⟨st1.current_project_idx, setCount st1.project_fail_count k1.project 0⟩,
          0 + 1, 0 + 1⟩ := by
    intro st1 ha hb
    rw [hf]
    exact rotLoop_ok_step ha hb hq
  simp only [try_unfold_nonempty hN]
  refine ⟨p, q, k1, ho1, ?_, ?_⟩
  · rw [h2 _ hk1 hlt1]
  · rw [h2 _ hk1 hlt1]

/-- Witness for C9: one key, always-succeeding work, fresh session. -/
theorem C9_repeated_success_idempotent_witness :
    0 < ([⟨"A", "a"⟩] : List KeyInfo).length ∧ 0 < 1 ∧
    initialSession.current_project_idx < ([⟨"A", "a"⟩] : List KeyInfo).length ∧
    (∀ n, ∃ r, (fun _ : Nat => Except.ok (ε := String) "done") n = Except.ok r) ∧
    (∃ (i : Nat) (k : KeyInfo), ([⟨"A", "a"⟩] : List KeyInfo)[i]? = some k ∧
      initialSession.project_fail_count k.project < 1) ∧
    (∃ p q k,
      (try_with_multi_project_keys [⟨"A", "a"⟩] (fun _ => Except.ok "done") 1
        initialSession).outcome = RotOutcome.ok p k ∧
      (try_with_multi_project_keys [⟨"A", "a"⟩] (fun _ => Except.ok "done") 1
        (try_with_multi_project_keys [⟨"A", "a"⟩] (fun _ => Except.ok "done") 1
          initialSession).state).outcome = RotOutcome.ok q k ∧
      (try_with_multi_project_keys [⟨"A", "a"⟩] (fun _ => Except.ok "done") 1
        (try_with_multi_project_keys [⟨"A", "a"⟩] (fun _ => Except.ok "done") 1
          initialSession).state).state.current_project_idx =
      (try_with_multi_project_keys [⟨"A", "a"⟩] (fun _ => Except.ok "done") 1
        initialSession).state.current_project_idx) :=
  ⟨by decide, by decide, by decide, fun n => ⟨"done", rfl⟩,
    ⟨0, ⟨"A", "a"⟩, by decide, by decide⟩,
    C9_repeated_success_idempotent [⟨"A", "a"⟩] (fun _ => Except.ok "done") 1
      initialSession (by decide) (by decide) (by decide)
      (fun n => ⟨"done", rfl⟩) ⟨0, ⟨"A", "a"⟩, by decide, by decide⟩⟩

/-- Claim C10: the fatal-error return still increments the failing
project's persistent fail count by one (the source increments before the
classification branch), so the fatal failure consumes one unit of that
credential's retry budget for later invocations in the same session;
`current_project_idx` and every other project's count are unchanged by
the fatal return. -/
theorem C10_fatal_error_increments_fail_count (keys : List KeyInfo)
    (cf : Nat → Except String String) (m fuel calls iters : Nat)
    (st : SessionState) (key_info : KeyInfo) (e : String)
    (hk : keys[st.current_project_idx]? = some key_info)
    (hlt : st.project_fail_count key_info.project < m)
    (hcf : cf calls = Except.error e)
    (hcl : (parse_error_message e).type = ErrType.unknown) :
    (rotLoop keys cf m (fuel + 1) calls iters st).state.project_fail_count
        key_info.project = st.project_fail_count key_info.project + 1 ∧
    (rotLoop keys cf m (fuel + 1) calls iters st).state.current_project_idx =
        st.current_project_idx ∧
    (∀ q, q ≠ key_info.project →
      (rotLoop keys cf m (fuel + 1) calls iters st).state.project_fail_count q =
        st.project_fail_count q) ∧
    (rotLoop keys cf m (fuel + 1) calls iters st).outcome =
        RotOutcome.fail e (some key_info) := by
  rw [rotLoop_fatal hk hlt hcf hcl]
  exact ⟨by simp [setCount], rfl, fun q hq => by simp [setCount, hq], rfl⟩

/-- Witness for C10: one key, a fatal (unclassified) error. -/
theorem C10_fatal_error_increments_fail_count_witness :
    ([⟨"A", "a"⟩] : List KeyInfo)[(initialSession).current_project_idx]? =
        some ⟨"A", "a"⟩ ∧
    initialSession.project_fail_count "A" < 2 ∧
    (fun _ : Nat => Except.error (α := String) "fatal failure") 0 =
        Except.error "fatal failure" ∧
    (parse_error_message "fatal failure").type = ErrType.unknown ∧
    ((rotLoop [⟨"A", "a"⟩] (fun _ => Except.error "fatal failure") 2 (1 + 1) 0 0
        initialSession).state.project_fail_count "A" =
        initialSession.project_fail_count "A" + 1 ∧
      (rotLoop [⟨"A", "a"⟩] (fun _ => Except.error "fatal failure") 2 (1 + 1) 0 0
        initialSession).state.current_project_idx = initialSession.current_project_idx ∧
      (∀ q, q ≠ "A" →
        (rotLoop [⟨"A", "a"⟩] (fun _ => Except.error "fatal failure") 2 (1 + 1) 0 0
          initialSession).state.project_fail_count q =
          initialSession.project_fail_count q) ∧
      (rotLoop [⟨"A", "a"⟩] (fun _ => Except.error "fatal failure") 2 (1 + 1) 0 0
        initialSession).outcome = RotOutcome.fail "fatal failure" (some ⟨"A", "a"⟩)) :=
  ⟨by decide, by decide, rfl, by decide,
    C10_fatal_error_increments_fail_count [⟨"A", "a"⟩]
      (fun _ => Except.error "fatal failure") 2 1 0 0 initialSession ⟨"A", "a"⟩
      "fatal failure" (by decide) (by decide) rfl (by decide)⟩

end LegalAiApp
